import Mathlib

/- Shallow embedding of src/app.py (Admission Announcements API). -/

/-- HTML node: an element with tag name, class list, other attributes and
children, or a text node. Models the parsed tree produced by the HTML parser. -/
inductive Html where
  | elem (name : String) (classes : List String) (attrs : List (String × String)) (children : List Html)
  | text (s : String)
deriving Repr

/-- Tag name of a node (none for text nodes), as the parser's name accessor. -/
def htmlName : Html → Option String
  | .elem n _ _ _ => some n
  | .text _ => none

/-- Does a node match a given tag name (text nodes never match)? -/
def isTagName (t : String) : Html → Bool
  | .elem n _ _ _ => n == t
  | .text _ => false

/-- Does a node match a given tag name and carry a given CSS class? -/
def isTagClass (t c : String) : Html → Bool
  | .elem n cls _ _ => n == t && cls.contains c
  | .text _ => false

/-- Attribute lookup on an element, as the parser's get accessor. -/
def getAttr (k : String) : Html → Option String
  | .elem _ _ attrs _ => attrs.lookup k
  | .text _ => none

/-- Direct children of a node. -/
def directChildren : Html → List Html
  | .elem _ _ _ cs => cs
  | .text _ => []

mutual

/-- Concatenated text of all descendant text nodes, in document order
(the parser's text accessor). -/
def textOf : Html → String
  | .text s => s
  | .elem _ _ _ cs => textOfList cs

/-- Text of a list of sibling nodes, concatenated in order. -/
def textOfList : List Html → String
  | [] => ""
  | c :: cs => textOf c ++ textOfList cs

end

mutual

/-- First descendant of a node satisfying a predicate, in document order
(the parser's find). The node itself is not considered. -/
def findDesc (p : Html → Bool) : Html → Option Html
  | .text _ => none
  | .elem _ _ _ cs => findFirst p cs

/-- First node in a forest (or among its descendants) satisfying a predicate. -/
def findFirst (p : Html → Bool) : List Html → Option Html
  | [] => none
  | c :: cs =>
    if p c then some c
    else
      match findDesc p c with
      | some r => some r
      | none => findFirst p cs

end

mutual

/-- All descendants of a node satisfying a predicate, in document order
(the parser's find_all with recursion). -/
def findAllDesc (p : Html → Bool) : Html → List Html
  | .text _ => []
  | .elem _ _ _ cs => findAllList p cs

/-- All nodes in a forest (with their descendants) satisfying a predicate. -/
def findAllList (p : Html → Bool) : List Html → List Html
  | [] => []
  | c :: cs => (if p c then [c] else []) ++ findAllDesc p c ++ findAllList p cs

end

mutual

/-- All descendants of a node satisfying a predicate, each paired with the
list of its following siblings inside its own parent, in document order.
Supports the combination of find_all with find_next_sibling. -/
def findAllWithFollowing (p : Html → Bool) : Html → List (Html × List Html)
  | .text _ => []
  | .elem _ _ _ cs => findAllWithFollowingList p cs

/-- Matches in a forest, each paired with its following siblings. -/
def findAllWithFollowingList (p : Html → Bool) : List Html → List (Html × List Html)
  | [] => []
  | c :: cs => (if p c then [(c, cs)] else []) ++ findAllWithFollowing p c ++ findAllWithFollowingList p cs

end

/-- First element (tag) node in a list of following siblings, skipping text
nodes, as the parser's find_next_sibling with no filter. -/
def findNextSiblingTag : List Html → Option Html
  | [] => none
  | Html.text _ :: rest => findNextSiblingTag rest
  | Html.elem n cls attrs cs :: _ => some (Html.elem n cls attrs cs)

/-- Simple CSS selector: by id, by class, or by tag name. -/
inductive Sel where
  | idSel (v : String)
  | clsSel (v : String)
  | tagSel (v : String)
deriving Repr

/-- Does one simple selector match a node? -/
def selMatches : Sel → Html → Bool
  | .idSel v, e => getAttr "id" e == some v
  | .clsSel v, .elem _ cls _ _ => cls.contains v
  | .clsSel _, .text _ => false
  | .tagSel v, e => isTagName v e

/-- Selector states usable below a node: every state active at the node stays
active for descendants, and a state whose head simple selector matches the
node advances to its tail (descendant combinator semantics). -/
def advanceStates (e : Html) (states : List (List Sel)) : List (List Sel) :=
  states ++ states.filterMap fun st =>
    match st with
    | s :: rest :: more => if selMatches s e then some (rest :: more) else none
    | _ => none

/-- Is some selector chain completed exactly at this node? -/
def completeHere (e : Html) (states : List (List Sel)) : Bool :=
  states.any fun st =>
    match st with
    | [s] => selMatches s e
    | _ => false

mutual

/-- Elements matching a descendant-combinator selector chain, in document
order, given the set of still-active chain suffixes (the select method). -/
def selectGo (states : List (List Sel)) : Html → List Html
  | .text _ => []
  | .elem n cls attrs cs =>
    let e := Html.elem n cls attrs cs
    (if completeHere e states then [e] else []) ++ selectGoList (advanceStates e states) cs

/-- Selector matching over a forest of siblings. -/
def selectGoList (states : List (List Sel)) : List Html → List Html
  | [] => []
  | c :: cs => selectGo states c ++ selectGoList states cs

end

/-- Run a full selector chain against a document root. -/
def select (sels : List Sel) (doc : Html) : List Html := selectGo [sels] doc

/-- Lowercasing model of the str.lower method, mapping the ASCII uppercase
range to lowercase characterwise. -/
def pyLower (s : String) : String := String.mk (s.data.map Char.toLower)

/-- Stripping model of the str.strip method: drop whitespace characters from
both ends. -/
def pyStrip (s : String) : String :=
  String.mk (((s.data.dropWhile Char.isWhitespace).reverse.dropWhile Char.isWhitespace).reverse)

/-- JSON-like value appearing in an announcement dictionary: None, a string,
or a list of strings. -/
inductive Value where
  | null
  | str (s : String)
  | list (xs : List String)
deriving Repr, DecidableEq

/-- An announcement record is a Python dict, modelled as an association list
keeping the literal key order of the source. -/
abbrev Record := List (String × Value)

/-- Outcome of the HTTP GET an extractor performs against its fixed URL:
either a requests-level failure (connection error or timeout), or a response
with a status code and a parsed HTML body. -/
inductive FetchOutcome where
  | netError
  | response (status : Nat) (body : Html)

/-- The remote world: what each URL returns when fetched. -/
abbrev World := String → FetchOutcome

/-- Did the try block of an extractor raise a RequestException? The requests
library raises on connection errors and timeouts, and raise_for_status raises
HTTPError exactly for status codes 400 through 599. -/
def fetchRaises : FetchOutcome → Bool
  | .netError => true
  | .response status _ => decide (400 ≤ status ∧ status < 600)

/-- Model of the Python idiom s or "Untitled" applied to a stripped string:
the empty string is falsy and is replaced by the placeholder. -/
def orUntitled (s : String) : String := if s = "" then "Untitled" else s

/-- Python list slice xs[start:stop] for nonnegative bounds. -/
def pySlice (xs : List α) (start stop : Nat) : List α := (xs.drop start).take (stop - start)

/-- Fixed URL fetched by the Bangalore extractor. -/
def bangalore_url : String := "https://bangaloreuniversity.karnataka.gov.in/notifications"

/-- Fixed URL fetched by the Goa extractor. -/
def goa_url : String := "https://www.unigoa.ac.in/systems/c/admissions/announcementsnotices.html"

/-- Fixed URL fetched by the Mumbai extractor. -/
def mumbai_url : String := "https://mu.ac.in/department-announcements"

/-- Else branch of the Bangalore loop body: no link tag, or a link tag whose
href is missing or empty. -/
def bangaloreFallback (item : Html) : Record :=
  [("university", Value.str "Bangalore"),
   ("title", Value.str (orUntitled (pyStrip (textOf item)))),
   ("description", Value.null),
   ("link", Value.null)]

/-- Loop body of scrape_bangalore_notifications for one list item, with the
urljoin capability passed in. -/
def bangaloreItem (uj : String → String → String) (item : Html) : Record :=
  match findDesc (isTagName "a") item with
  | some link_tag =>
    match getAttr "href" link_tag with
    | some href =>
      if href ≠ "" then
        [("university", Value.str "Bangalore"),
         ("title", Value.str (orUntitled (pyStrip (textOf link_tag)))),
         ("description", Value.null),
         ("link", Value.str (uj bangalore_url href))]
      else bangaloreFallback item
    | none => bangaloreFallback item
  | none => bangaloreFallback item

/-- Embedding of scrape_bangalore_notifications: on a fetch failure return [];
otherwise find the container-classed div, its first ul, and map the loop body
over the ul's direct li children. -/
def scrape_bangalore_notifications (uj : String → String → String) (w : World) : List Record :=
  match w bangalore_url with
  | .netError => []
  | .response status body =>
    if 400 ≤ status ∧ status < 600 then []
    else
      match findDesc (isTagClass "div" "container") body with
      | none => []
      | some container =>
        match findDesc (isTagName "ul") container with
        | none => []
        | some unordered_list =>
          ((directChildren unordered_list).filter (isTagName "li")).map (bangaloreItem uj)

/-- Loop body of scrape_goa_notifications for one h4 heading together with its
following siblings: details come from the next sibling element only when that
sibling is a ul. -/
def goaItem (h4 : Html) (following : List Html) : Record :=
  let title := orUntitled (pyStrip (textOf h4))
  let details : List String :=
    match findNextSiblingTag following with
    | some next_element =>
      if htmlName next_element == some "ul" then
        (findAllDesc (isTagName "li") next_element).map (fun li => pyStrip (textOf li))
      else []
    | none => []
  [("university", Value.str "Goa"),
   ("title", Value.str title),
   ("details", Value.list details)]

/-- Embedding of scrape_goa_notifications: on a fetch failure return [];
otherwise find the details1-classed div, inside it the details1_left-classed
div, and map the loop body over every h4 descendant. -/
def scrape_goa_notifications (w : World) : List Record :=
  match w goa_url with
  | .netError => []
  | .response status body =>
    if 400 ≤ status ∧ status < 600 then []
    else
      match findDesc (isTagClass "div" "details1") body with
      | none => []
      | some inside_wrapper =>
        match findDesc (isTagClass "div" "details1_left") inside_wrapper with
        | none => []
        | some details1_left =>
          (findAllWithFollowing (isTagName "h4") details1_left).map (fun p => goaItem p.1 p.2)

/-- Else branch of the Mumbai loop body: no link tag, or a link tag whose
href is missing or empty. -/
def mumbaiFallback (li : Html) : Record :=
  [("university", Value.str "Mumbai"),
   ("title", Value.str (orUntitled (pyStrip (textOf li)))),
   ("link", Value.null)]

/-- Loop body of scrape_mumbai_notifications for one selected list item. -/
def mumbaiItem (uj : String → String → String) (li : Html) : Record :=
  match findDesc (isTagName "a") li with
  | some a_tag =>
    match getAttr "href" a_tag with
    | some href =>
      if href ≠ "" then
        [("university", Value.str "Mumbai"),
         ("title", Value.str (orUntitled (pyStrip (textOf a_tag)))),
         ("link", Value.str (uj mumbai_url href))]
      else mumbaiFallback li
    | none => mumbaiFallback li
  | none => mumbaiFallback li

/-- Selector chain of the Mumbai extractor:
#main .entry-content .wpb_text_column ul li. -/
def mumbaiSelector : List Sel :=
  [Sel.idSel "main", Sel.clsSel "entry-content", Sel.clsSel "wpb_text_column",
   Sel.tagSel "ul", Sel.tagSel "li"]

/-- Embedding of scrape_mumbai_notifications: on a fetch failure return [];
otherwise map the loop body over the elements selected by the CSS chain. -/
def scrape_mumbai_notifications (uj : String → String → String) (w : World) : List Record :=
  match w mumbai_url with
  | .netError => []
  | .response status body =>
    if 400 ≤ status ∧ status < 600 then []
    else (select mumbaiSelector body).map (mumbaiItem uj)

/-- The scrapers dict of get_university_announcements: lower-cased source key
to extractor, in the literal order of the source. -/
def scrapers (uj : String → String → String) : List (String × (World → List Record)) :=
  [("bangalore", scrape_bangalore_notifications uj),
   ("goa", scrape_goa_notifications),
   ("mumbai", scrape_mumbai_notifications uj)]

/-- FastAPI HTTPException carrying a status code and a detail message. -/
structure HTTPException where
  status_code : Nat
  detail : String
deriving Repr, DecidableEq

/-- Successful JSON body of the announcements endpoints. -/
structure PageResponse where
  data : List Record
  total : Nat
  limit : Nat
  offset : Nat
deriving Repr, DecidableEq

/-- Body of the try block of get_all_announcements: aggregate the three
extractors in Bangalore, Goa, Mumbai order, raise 404 when the aggregate is
empty, otherwise slice and answer. -/
def get_all_body (uj : String → String → String) (w : World) (limit offset : Nat) :
    Except HTTPException PageResponse :=
  let bangalore := scrape_bangalore_notifications uj w
  let goa := scrape_goa_notifications w
  let mumbai := scrape_mumbai_notifications uj w
  let all_announcements := bangalore ++ goa ++ mumbai
  if all_announcements.isEmpty then
    Except.error ⟨404, "No announcements found"⟩
  else
    Except.ok ⟨pySlice all_announcements offset (offset + limit),
               all_announcements.length, limit, offset⟩

/-- Embedding of the GET /announcements handler. The except clause catches
every Exception, and HTTPException is an Exception subclass, so even the 404
raised inside the try block is remapped to a 500 here. -/
def get_all_announcements (uj : String → String → String) (w : World) (limit offset : Nat) :
    Except HTTPException PageResponse :=
  match get_all_body uj w limit offset with
  | Except.ok r => Except.ok r
  | Except.error _ => Except.error ⟨500, "Internal server error"⟩

/-- Body of the try block of get_university_announcements: run the chosen
extractor, raise 404 when it yields nothing, otherwise slice and answer. -/
def get_university_body (scraper : World → List Record) (university : String) (w : World)
    (limit offset : Nat) : Except HTTPException PageResponse :=
  let announcements := scraper w
  if announcements.isEmpty then
    Except.error ⟨404, "No announcements found for " ++ university⟩
  else
    Except.ok ⟨pySlice announcements offset (offset + limit),
               announcements.length, limit, offset⟩

/-- Embedding of the GET /announcements/{university} handler. The unknown-key
404 is raised before the try block and survives; the empty-result 404 raised
inside the try block is caught by the except clause and remapped to a 500. -/
def get_university_announcements (uj : String → String → String) (university : String)
    (w : World) (limit offset : Nat) : Except HTTPException PageResponse :=
  let university_key := pyLower university
  match (scrapers uj).lookup university_key with
  | none => Except.error ⟨404, "University '" ++ university ++ "' not found"⟩
  | some scraper =>
    match get_university_body scraper university w limit offset with
    | Except.ok r => Except.ok r
    | Except.error _ => Except.error ⟨500, "Internal server error"⟩

/-- Identity-on-href stand-in for the urljoin capability, used to instantiate
concrete scenarios. -/
def ujoin : String → String → String := fun _ href => href

/-- World in which every remote fetch fails with a network error. -/
def wFail : World := fun _ => FetchOutcome.netError

/-- Concrete Bangalore notifications page with one linked list item. -/
def bangaloreDoc : Html :=
  .elem "html" [] [] [
    .elem "div" ["container"] [] [
      .elem "ul" [] [] [
        .elem "li" [] [] [.elem "a" [] [("href", "x.pdf")] [.text "Hello"]]]]]

/-- Concrete Goa announcements page with one heading followed by a ul. -/
def goaDoc : Html :=
  .elem "html" [] [] [
    .elem "div" ["details1"] [] [
      .elem "div" ["details1_left"] [] [
        .elem "h4" [] [] [.text "Admissions"],
        .elem "ul" [] [] [.elem "li" [] [] [.text "item1"]]]]]

/-- Concrete Mumbai announcements page with one selected list item. -/
def mumbaiDoc : Html :=
  .elem "html" [] [] [
    .elem "div" [] [("id", "main")] [
      .elem "div" ["entry-content"] [] [
        .elem "div" ["wpb_text_column"] [] [
          .elem "ul" [] [] [
            .elem "li" [] [] [.elem "a" [] [("href", "a.pdf")] [.text "Note"]]]]]]]

/-- World in which each of the three fixed URLs serves its sample page. -/
def wSample : World := fun url =>
  if url = bangalore_url then .response 200 bangaloreDoc
  else if url = goa_url then .response 200 goaDoc
  else if url = mumbai_url then .response 200 mumbaiDoc
  else .netError

/-- A nonempty list is not isEmpty. -/
theorem isEmpty_false_of_ne_nil {α : Type} {l : List α} (h : l ≠ []) : l.isEmpty = false := by
  cases l with
  | nil => exact absurd rfl h
  | cons a t => rfl

/-- Slicing past the end of a list yields the empty list. -/
theorem pySlice_eq_nil_of_le {α : Type} {xs : List α} {start stop : Nat}
    (h : xs.length ≤ start) : pySlice xs start stop = [] := by
  unfold pySlice
  rw [List.drop_eq_nil_of_le h]
  exact List.take_nil

/-- Number of pagination slices needed to cover a list of length n with a
window of size limit: the ceiling of n divided by limit. -/
def numSlices (n limit : Nat) : Nat := (n + limit - 1) / limit

/-- Concatenation of the pagination slices taken at the successive offsets
0, limit, 2*limit and so on, until the list is exhausted. -/
def joinSlices (S : List α) (limit : Nat) : List α :=
  (List.range (numSlices S.length limit)).flatMap fun i => pySlice S (i * limit) (i * limit + limit)

/-- Covering an empty list needs no slices. -/
theorem numSlices_zero (limit : Nat) (hl : 1 ≤ limit) : numSlices 0 limit = 0 := by
  unfold numSlices
  have e : 0 + limit - 1 = limit - 1 := by omega
  rw [e, Nat.div_eq_of_lt (by omega)]

/-- Covering a nonempty list needs one slice more than covering what is left
after removing the first window. -/
theorem numSlices_succ (n limit : Nat) (hl : 1 ≤ limit) (hn : 1 ≤ n) :
    numSlices n limit = numSlices (n - limit) limit + 1 := by
  unfold numSlices
  have e1 : n + limit - 1 = (n - 1) + limit := by omega
  rw [e1, Nat.add_div_right _ (by omega : 0 < limit)]
  by_cases hc : n ≤ limit
  · have h0 : n - limit = 0 := by omega
    rw [h0]
    have e2 : 0 + limit - 1 = limit - 1 := by omega
    rw [e2, Nat.div_eq_of_lt (by omega : n - 1 < limit), Nat.div_eq_of_lt (by omega : limit - 1 < limit)]
  · have e2 : n - limit + limit - 1 = (n - 1 - limit) + limit := by omega
    rw [e2, Nat.add_div_right _ (by omega : 0 < limit)]
    congr 1
    exact Nat.div_eq_sub_div (by omega) (by omega : limit ≤ n - 1)

/-- Successive slices of width limit, concatenated, give the list back. -/
theorem joinSlices_eq_self {α : Type} (limit : Nat) (hl : 1 ≤ limit) :
    ∀ (fuel : Nat) (S : List α), S.length ≤ fuel → joinSlices S limit = S := by
  intro fuel
  induction fuel with
  | zero =>
    intro S hS
    have h0 : S = [] := List.eq_nil_of_length_eq_zero (by omega)
    subst h0
    simp [joinSlices, numSlices_zero limit hl]
  | succ m ih =>
    intro S hS
    by_cases hS0 : S = []
    · subst hS0
      simp [joinSlices, numSlices_zero limit hl]
    · have hn : 1 ≤ S.length := by
        cases S with
        | nil => exact absurd rfl hS0
        | cons a t => simp
      unfold joinSlices
      rw [numSlices_succ S.length limit hl hn, List.range_succ_eq_map, List.flatMap_cons,
          List.flatMap_map]
      have hfun : (fun i => pySlice S (Nat.succ i * limit) (Nat.succ i * limit + limit)) =
          fun i => pySlice (S.drop limit) (i * limit) (i * limit + limit) := by
        funext i
        unfold pySlice
        have ew : Nat.succ i * limit + limit - Nat.succ i * limit = limit := by omega
        have ew2 : i * limit + limit - i * limit = limit := by omega
        rw [ew, ew2, List.drop_drop]
        have e : limit + i * limit = Nat.succ i * limit := by
          rw [Nat.succ_mul]
          exact Nat.add_comm limit (i * limit)
        rw [e]
      rw [hfun]
      have hlen : (S.drop limit).length = S.length - limit := List.length_drop limit S
      have hrec : (List.range (numSlices (S.length - limit) limit)).flatMap
          (fun i => pySlice (S.drop limit) (i * limit) (i * limit + limit)) =
          joinSlices (S.drop limit) limit := by
        unfold joinSlices
        rw [hlen]
      rw [hrec, ih (S.drop limit) (by rw [hlen]; omega)]
      have h0 : pySlice S (0 * limit) (0 * limit + limit) = S.take limit := by
        unfold pySlice
        simp
      rw [h0, List.take_append_drop]

/-- C2: the pagination slice at a given offset and limit has length equal to
the smaller of limit and the number of elements remaining past the offset
(truncated subtraction supplies the clamp at zero), and the slices taken at
the successive offsets 0, limit, 2*limit and so on concatenate back to the
original list. -/
theorem pagination_slice_correct {α : Type} (S : List α) (limit offset : Nat)
    (hl : 1 ≤ limit) :
    (pySlice S offset (offset + limit)).length = min limit (S.length - offset) ∧
    joinSlices S limit = S := by
  constructor
  · unfold pySlice
    simp
  · exact joinSlices_eq_self limit hl S.length S le_rfl

/-- Witness for C2: a three-element list sliced with limit 2 at offset 1 has
one full window of length two left, and slicing at offsets 0 and 2
reassembles the list. -/
theorem pagination_slice_correct_witness :
    (pySlice [10, 20, 30] 1 (1 + 2)).length = min 2 (([10, 20, 30] : List Nat).length - 1) ∧
    joinSlices [10, 20, 30] 2 = [10, 20, 30] :=
  pagination_slice_correct [10, 20, 30] 2 1 (by decide)

/-- C1: the spec requires that an empty extraction or aggregation surface as a
404, never a 500. The code instead raises its 404 HTTPException inside the
try block whose except clause catches every Exception (HTTPException included)
and remaps it to a 500, so both endpoints answer 500 when every fetch fails
and the result list is empty. This theorem evaluates the handlers at that
failing input, exhibiting the divergence from the claim. -/
theorem empty_results_surface_as_500 :
    get_all_announcements ujoin wFail 100 0 = Except.error ⟨500, "Internal server error"⟩ ∧
    get_university_announcements ujoin "goa" wFail 100 0 =
      Except.error ⟨500, "Internal server error"⟩ :=
  ⟨rfl, rfl⟩

/-- C3: for any fetch outcomes, whenever the aggregate is nonempty, the
GET /announcements response exposes exactly the concatenation of the Bangalore,
Goa and Mumbai extractor outputs in that order (sliced by the pagination
window), with the total equal to the concatenation's length: no merging,
sorting or deduplication happens. -/
theorem aggregation_is_ordered_concat (uj : String → String → String) (w : World)
    (limit offset : Nat)
    (h : scrape_bangalore_notifications uj w ++ scrape_goa_notifications w ++
          scrape_mumbai_notifications uj w ≠ []) :
    get_all_announcements uj w limit offset =
      Except.ok ⟨pySlice (scrape_bangalore_notifications uj w ++ scrape_goa_notifications w ++
                    scrape_mumbai_notifications uj w) offset (offset + limit),
                 (scrape_bangalore_notifications uj w ++ scrape_goa_notifications w ++
                    scrape_mumbai_notifications uj w).length,
                 limit, offset⟩ := by
  have h' : ¬(scrape_bangalore_notifications uj w = [] ∧ scrape_goa_notifications w = [] ∧
      scrape_mumbai_notifications uj w = []) := by
    intro hc
    exact h (by simp [hc.1, hc.2.1, hc.2.2])
  simp [get_all_announcements, get_all_body, h']

/-- Witness for C3: with the sample pages, GET /announcements returns the
Bangalore record, then the Goa record, then the Mumbai record. -/
theorem aggregation_is_ordered_concat_witness :
    get_all_announcements ujoin wSample 100 0 =
      Except.ok ⟨[[("university", Value.str "Bangalore"), ("title", Value.str "Hello"),
                   ("description", Value.null), ("link", Value.str "x.pdf")],
                  [("university", Value.str "Goa"), ("title", Value.str "Admissions"),
                   ("details", Value.list ["item1"])],
                  [("university", Value.str "Mumbai"), ("title", Value.str "Note"),
                   ("link", Value.str "a.pdf")]],
                 3, 100, 0⟩ :=
  aggregation_is_ordered_concat ujoin wSample 100 0 (by decide)

/-- World in which every URL answers with status 300 and the sample Bangalore
page as body. -/
def w300 : World := fun _ => FetchOutcome.response 300 bangaloreDoc

/-- C4 counterexample: 300 is not a 2xx status, yet the Bangalore extractor
does not return the empty list on a status-300 response with a parseable
body, because raise_for_status only raises for statuses 400 through 599.
The claim that any non-2xx status yields an empty sequence is false. -/
theorem non2xx_not_always_empty :
    (¬ (200 ≤ 300 ∧ 300 ≤ 299)) ∧
    scrape_bangalore_notifications ujoin w300 =
      [[("university", Value.str "Bangalore"), ("title", Value.str "Hello"),
        ("description", Value.null), ("link", Value.str "x.pdf")]] ∧
    scrape_bangalore_notifications ujoin w300 ≠ [] := by
  refine ⟨by decide, by decide, by decide⟩

/-- C4 amended: when the fetch raises — a network error or timeout, or a
response status in the 4xx or 5xx range — each extractor returns the empty
list (total functions never raise), and a structural mismatch (the
source-specific anchor elements missing from the page) likewise yields the
empty list. -/
theorem extractor_failure_yields_empty (uj : String → String → String) (w : World) :
    (w bangalore_url = FetchOutcome.netError → scrape_bangalore_notifications uj w = []) ∧
    (∀ status body, 400 ≤ status → status < 600 →
      w bangalore_url = FetchOutcome.response status body →
      scrape_bangalore_notifications uj w = []) ∧
    (∀ status body, w bangalore_url = FetchOutcome.response status body →
      findDesc (isTagClass "div" "container") body = none →
      scrape_bangalore_notifications uj w = []) ∧
    (∀ status body container, w bangalore_url = FetchOutcome.response status body →
      findDesc (isTagClass "div" "container") body = some container →
      findDesc (isTagName "ul") container = none →
      scrape_bangalore_notifications uj w = []) ∧
    (w goa_url = FetchOutcome.netError → scrape_goa_notifications w = []) ∧
    (∀ status body, 400 ≤ status → status < 600 →
      w goa_url = FetchOutcome.response status body →
      scrape_goa_notifications w = []) ∧
    (∀ status body, w goa_url = FetchOutcome.response status body →
      findDesc (isTagClass "div" "details1") body = none →
      scrape_goa_notifications w = []) ∧
    (∀ status body inside_wrapper, w goa_url = FetchOutcome.response status body →
      findDesc (isTagClass "div" "details1") body = some inside_wrapper →
      findDesc (isTagClass "div" "details1_left") inside_wrapper = none →
      scrape_goa_notifications w = []) ∧
    (w mumbai_url = FetchOutcome.netError → scrape_mumbai_notifications uj w = []) ∧
    (∀ status body, 400 ≤ status → status < 600 →
      w mumbai_url = FetchOutcome.response status body →
      scrape_mumbai_notifications uj w = []) ∧
    (∀ status body, w mumbai_url = FetchOutcome.response status body →
      select mumbaiSelector body = [] →
      scrape_mumbai_notifications uj w = []) := by
  refine ⟨fun hw => ?_, fun status body h1 h2 hw => ?_, fun status body hw hf => ?_,
          fun status body container hw hf1 hf2 => ?_,
          fun hw => ?_, fun status body h1 h2 hw => ?_, fun status body hw hf => ?_,
          fun status body inside_wrapper hw hf1 hf2 => ?_,
          fun hw => ?_, fun status body h1 h2 hw => ?_, fun status body hw hsel => ?_⟩
  · simp only [scrape_bangalore_notifications, hw]
  · simp only [scrape_bangalore_notifications, hw]
    rw [if_pos ⟨h1, h2⟩]
  · simp only [scrape_bangalore_notifications, hw, hf]
    split <;> rfl
  · simp only [scrape_bangalore_notifications, hw, hf1, hf2]
    split <;> rfl
  · simp only [scrape_goa_notifications, hw]
  · simp only [scrape_goa_notifications, hw]
    rw [if_pos ⟨h1, h2⟩]
  · simp only [scrape_goa_notifications, hw, hf]
    split <;> rfl
  · simp only [scrape_goa_notifications, hw, hf1, hf2]
    split <;> rfl
  · simp only [scrape_mumbai_notifications, hw]
  · simp only [scrape_mumbai_notifications, hw]
    rw [if_pos ⟨h1, h2⟩]
  · simp only [scrape_mumbai_notifications, hw, hsel, List.map_nil]
    split <;> rfl

/-- Witness for C4: a network failure on the Bangalore URL yields the empty
list. -/
theorem extractor_failure_yields_empty_witness :
    scrape_bangalore_notifications ujoin wFail = [] :=
  (extractor_failure_yields_empty ujoin wFail).1 rfl

/-- C5: when the requested offset is at least the length of the (nonempty)
result list, both announcements endpoints return an empty data list while
total is the full pre-slicing length and limit and offset echo the request. -/
theorem offset_beyond_total_keeps_total (uj : String → String → String) (u : String)
    (w : World) (limit offset : Nat) :
    ((scrape_bangalore_notifications uj w ++ scrape_goa_notifications w ++
        scrape_mumbai_notifications uj w) ≠ [] →
      (scrape_bangalore_notifications uj w ++ scrape_goa_notifications w ++
        scrape_mumbai_notifications uj w).length ≤ offset →
      get_all_announcements uj w limit offset =
        Except.ok ⟨[], (scrape_bangalore_notifications uj w ++ scrape_goa_notifications w ++
                         scrape_mumbai_notifications uj w).length, limit, offset⟩) ∧
    (pyLower u = "bangalore" → scrape_bangalore_notifications uj w ≠ [] →
      (scrape_bangalore_notifications uj w).length ≤ offset →
      get_university_announcements uj u w limit offset =
        Except.ok ⟨[], (scrape_bangalore_notifications uj w).length, limit, offset⟩) ∧
    (pyLower u = "goa" → scrape_goa_notifications w ≠ [] →
      (scrape_goa_notifications w).length ≤ offset →
      get_university_announcements uj u w limit offset =
        Except.ok ⟨[], (scrape_goa_notifications w).length, limit, offset⟩) ∧
    (pyLower u = "mumbai" → scrape_mumbai_notifications uj w ≠ [] →
      (scrape_mumbai_notifications uj w).length ≤ offset →
      get_university_announcements uj u w limit offset =
        Except.ok ⟨[], (scrape_mumbai_notifications uj w).length, limit, offset⟩) := by
  refine ⟨fun hne hlen => ?_, fun hk hne hlen => ?_, fun hk hne hlen => ?_,
          fun hk hne hlen => ?_⟩
  · have h' : ¬(scrape_bangalore_notifications uj w = [] ∧ scrape_goa_notifications w = [] ∧
        scrape_mumbai_notifications uj w = []) := by
      intro hc
      exact hne (by simp [hc.1, hc.2.1, hc.2.2])
    simp [get_all_announcements, get_all_body, h']
    exact pySlice_eq_nil_of_le (by simpa using hlen)
  · simp [get_university_announcements, get_university_body, scrapers, hk, List.lookup,
          isEmpty_false_of_ne_nil hne, pySlice_eq_nil_of_le hlen]
  · simp [get_university_announcements, get_university_body, scrapers, hk, List.lookup,
          isEmpty_false_of_ne_nil hne, pySlice_eq_nil_of_le hlen]
  · simp [get_university_announcements, get_university_body, scrapers, hk, List.lookup,
          isEmpty_false_of_ne_nil hne, pySlice_eq_nil_of_le hlen]

/-- Witness for C5: with the sample pages (three aggregate records) and
offset 5, GET /announcements answers with empty data but total 3. -/
theorem offset_beyond_total_keeps_total_witness :
    get_all_announcements ujoin wSample 100 5 = Except.ok ⟨[], 3, 100, 5⟩ :=
  (offset_beyond_total_keeps_total ujoin "goa" wSample 100 5).1 (by decide) (by decide)

/-- C9: source-key lookup is case-insensitive. Any university path value whose
lowercasing is bangalore, goa or mumbai makes the handler run the matching
extractor's branch, and any value whose lowercasing is outside that set is
answered with the 404 not-found error. -/
theorem source_key_case_insensitive (uj : String → String → String) (university : String)
    (w : World) (limit offset : Nat) :
    (pyLower university = "bangalore" →
      get_university_announcements uj university w limit offset =
        match get_university_body (scrape_bangalore_notifications uj) university w limit offset with
        | Except.ok r => Except.ok r
        | Except.error _ => Except.error ⟨500, "Internal server error"⟩) ∧
    (pyLower university = "goa" →
      get_university_announcements uj university w limit offset =
        match get_university_body scrape_goa_notifications university w limit offset with
        | Except.ok r => Except.ok r
        | Except.error _ => Except.error ⟨500, "Internal server error"⟩) ∧
    (pyLower university = "mumbai" →
      get_university_announcements uj university w limit offset =
        match get_university_body (scrape_mumbai_notifications uj) university w limit offset with
        | Except.ok r => Except.ok r
        | Except.error _ => Except.error ⟨500, "Internal server error"⟩) ∧
    (pyLower university ≠ "bangalore" → pyLower university ≠ "goa" →
      pyLower university ≠ "mumbai" →
      get_university_announcements uj university w limit offset =
        Except.error ⟨404, "University '" ++ university ++ "' not found"⟩) := by
  refine ⟨fun hk => ?_, fun hk => ?_, fun hk => ?_, fun h1 h2 h3 => ?_⟩
  · simp [get_university_announcements, scrapers, hk, List.lookup]
  · simp [get_university_announcements, scrapers, hk, List.lookup]
  · simp [get_university_announcements, scrapers, hk, List.lookup]
  · simp [get_university_announcements, scrapers, List.lookup,
          beq_eq_false_iff_ne.mpr h1, beq_eq_false_iff_ne.mpr h2, beq_eq_false_iff_ne.mpr h3]

/-- Witness for C9: the all-caps key BANGALORE reaches the Bangalore branch. -/
theorem source_key_case_insensitive_witness :
    get_university_announcements ujoin "BANGALORE" wSample 100 0 =
      match get_university_body (scrape_bangalore_notifications ujoin) "BANGALORE" wSample 100 0 with
      | Except.ok r => Except.ok r
      | Except.error _ => Except.error ⟨500, "Internal server error"⟩ :=
  (source_key_case_insensitive ujoin "BANGALORE" wSample 100 0).1 (by decide)

/-- C10: for a university value whose lowercasing is none of the three known
keys, the handler answers the 404 not-found error for every state of the
remote world (the error is raised before any extractor runs, so no fetch can
influence it), and it is a 404, not a 500, because the raise precedes the
handler's try block. -/
theorem unknown_university_404 (uj : String → String → String) (university : String)
    (w : World) (limit offset : Nat)
    (h1 : pyLower university ≠ "bangalore") (h2 : pyLower university ≠ "goa")
    (h3 : pyLower university ≠ "mumbai") :
    get_university_announcements uj university w limit offset =
      Except.error ⟨404, "University '" ++ university ++ "' not found"⟩ := by
  simp [get_university_announcements, scrapers, List.lookup,
        beq_eq_false_iff_ne.mpr h1, beq_eq_false_iff_ne.mpr h2, beq_eq_false_iff_ne.mpr h3]

/-- Witness for C10: GET /announcements/oxford is a 404 with the not-found
message, whatever the remote sites do. -/
theorem unknown_university_404_witness :
    get_university_announcements ujoin "oxford" wFail 100 0 =
      Except.error ⟨404, "University 'oxford' not found"⟩ :=
  unknown_university_404 ujoin "oxford" wFail 100 0 (by decide) (by decide) (by decide)

/-- The placeholder fallback never leaves a title empty. -/
theorem orUntitled_ne_empty (s : String) : orUntitled s ≠ "" := by
  unfold orUntitled
  by_cases h : s = ""
  · rw [if_pos h]
    decide
  · rw [if_neg h]
    exact h

/-- Field shape of every record produced by the Bangalore loop body: the keys
are exactly university, title, description and link, the university tag is
Bangalore, and the title is a nonempty string. -/
theorem bangaloreItem_fields (uj : String → String → String) (item : Html) :
    (bangaloreItem uj item).map Prod.fst = ["university", "title", "description", "link"] ∧
    (bangaloreItem uj item).lookup "university" = some (Value.str "Bangalore") ∧
    ∃ t, (bangaloreItem uj item).lookup "title" = some (Value.str t) ∧ t ≠ "" := by
  unfold bangaloreItem bangaloreFallback
  split
  · split
    · split
      · exact ⟨rfl, rfl, _, rfl, orUntitled_ne_empty _⟩
      · exact ⟨rfl, rfl, _, rfl, orUntitled_ne_empty _⟩
    · exact ⟨rfl, rfl, _, rfl, orUntitled_ne_empty _⟩
  · exact ⟨rfl, rfl, _, rfl, orUntitled_ne_empty _⟩

/-- Field shape of every record produced by the Goa loop body: the keys are
exactly university, title and details, the university tag is Goa, and the
title is a nonempty string. -/
theorem goaItem_fields (h4 : Html) (following : List Html) :
    (goaItem h4 following).map Prod.fst = ["university", "title", "details"] ∧
    (goaItem h4 following).lookup "university" = some (Value.str "Goa") ∧
    ∃ t, (goaItem h4 following).lookup "title" = some (Value.str t) ∧ t ≠ "" :=
  ⟨rfl, rfl, _, rfl, orUntitled_ne_empty _⟩

/-- Field shape of every record produced by the Mumbai loop body: the keys are
exactly university, title and link, the university tag is Mumbai, and the
title is a nonempty string. -/
theorem mumbaiItem_fields (uj : String → String → String) (li : Html) :
    (mumbaiItem uj li).map Prod.fst = ["university", "title", "link"] ∧
    (mumbaiItem uj li).lookup "university" = some (Value.str "Mumbai") ∧
    ∃ t, (mumbaiItem uj li).lookup "title" = some (Value.str t) ∧ t ≠ "" := by
  unfold mumbaiItem mumbaiFallback
  split
  · split
    · split
      · exact ⟨rfl, rfl, _, rfl, orUntitled_ne_empty _⟩
      · exact ⟨rfl, rfl, _, rfl, orUntitled_ne_empty _⟩
    · exact ⟨rfl, rfl, _, rfl, orUntitled_ne_empty _⟩
  · exact ⟨rfl, rfl, _, rfl, orUntitled_ne_empty _⟩

/-- Every record the Bangalore extractor emits comes from its loop body. -/
theorem mem_scrape_bangalore {uj : String → String → String} {w : World} {r : Record}
    (h : r ∈ scrape_bangalore_notifications uj w) : ∃ item, r = bangaloreItem uj item := by
  unfold scrape_bangalore_notifications at h
  rcases hw : w bangalore_url with _ | ⟨status, body⟩ <;> rw [hw] at h
  · simp at h
  · repeat' split at h
    all_goals try (obtain ⟨item, -, heq⟩ := List.mem_map.mp h; exact ⟨item, heq.symm⟩)
    all_goals simp at h

/-- Every record the Goa extractor emits comes from its loop body applied to
a heading and its following siblings. -/
theorem mem_scrape_goa {w : World} {r : Record}
    (h : r ∈ scrape_goa_notifications w) : ∃ h4 following, r = goaItem h4 following := by
  unfold scrape_goa_notifications at h
  rcases hw : w goa_url with _ | ⟨status, body⟩ <;> rw [hw] at h
  · simp at h
  · repeat' split at h
    all_goals try (obtain ⟨p, -, heq⟩ := List.mem_map.mp h; exact ⟨p.1, p.2, heq.symm⟩)
    all_goals simp at h

/-- Every record the Mumbai extractor emits comes from its loop body. -/
theorem mem_scrape_mumbai {uj : String → String → String} {w : World} {r : Record}
    (h : r ∈ scrape_mumbai_notifications uj w) : ∃ li, r = mumbaiItem uj li := by
  unfold scrape_mumbai_notifications at h
  rcases hw : w mumbai_url with _ | ⟨status, body⟩ <;> rw [hw] at h
  · simp at h
  · repeat' split at h
    all_goals try (obtain ⟨li, -, heq⟩ := List.mem_map.mp h; exact ⟨li, heq.symm⟩)
    all_goals simp at h

/-- C8: every record carries exactly its source's field shape and university
tag. Bangalore records have exactly the keys university, title, description
and link (so no details); Goa records exactly university, title and details
(so no link or description); Mumbai records exactly university, title and
link (so no details or description). -/
theorem record_field_shapes (uj : String → String → String) (w : World) :
    (∀ r ∈ scrape_bangalore_notifications uj w,
      r.map Prod.fst = ["university", "title", "description", "link"] ∧
      r.lookup "university" = some (Value.str "Bangalore")) ∧
    (∀ r ∈ scrape_goa_notifications w,
      r.map Prod.fst = ["university", "title", "details"] ∧
      r.lookup "university" = some (Value.str "Goa")) ∧
    (∀ r ∈ scrape_mumbai_notifications uj w,
      r.map Prod.fst = ["university", "title", "link"] ∧
      r.lookup "university" = some (Value.str "Mumbai")) := by
  refine ⟨fun r hr => ?_, fun r hr => ?_, fun r hr => ?_⟩
  · obtain ⟨item, rfl⟩ := mem_scrape_bangalore hr
    exact ⟨(bangaloreItem_fields uj item).1, (bangaloreItem_fields uj item).2.1⟩
  · obtain ⟨h4, following, rfl⟩ := mem_scrape_goa hr
    exact ⟨(goaItem_fields h4 following).1, (goaItem_fields h4 following).2.1⟩
  · obtain ⟨li, rfl⟩ := mem_scrape_mumbai hr
    exact ⟨(mumbaiItem_fields uj li).1, (mumbaiItem_fields uj li).2.1⟩

/-- Witness for C8: the record scraped from the sample Goa page has exactly
the Goa field shape. -/
theorem record_field_shapes_witness :
    ([("university", Value.str "Goa"), ("title", Value.str "Admissions"),
      ("details", Value.list ["item1"])] : Record).map Prod.fst =
        ["university", "title", "details"] ∧
    ([("university", Value.str "Goa"), ("title", Value.str "Admissions"),
      ("details", Value.list ["item1"])] : Record).lookup "university" =
        some (Value.str "Goa") :=
  (record_field_shapes ujoin wSample).2.1
    [("university", Value.str "Goa"), ("title", Value.str "Admissions"),
     ("details", Value.list ["item1"])] (by decide)

/-- Bangalore page whose list item contains a link tag without an href
attribute, plus extra text after the link. -/
def cxBangaloreDoc : Html :=
  .elem "html" [] [] [
    .elem "div" ["container"] [] [
      .elem "ul" [] [] [
        .elem "li" [] [] [.elem "a" [] [] [.text "x"], .text " y"]]]]

/-- World serving the link-without-href Bangalore page. -/
def wLinkNoHref : World := fun url =>
  if url = bangalore_url then .response 200 cxBangaloreDoc else .netError

/-- C6 counterexample: the list item contains a nested link element whose
stripped text is x, yet the produced title is the item's own text x y,
because the code takes the link branch only when the link also carries a
non-empty href. The claim that the title is the link's trimmed text whenever
a link exists is false. -/
theorem linkless_href_title_uses_item_text :
    ((findDesc (isTagName "a")
        (Html.elem "li" [] [] [Html.elem "a" [] [] [Html.text "x"], Html.text " y"])).map
      (fun a => pyStrip (textOf a)) = some "x") ∧
    scrape_bangalore_notifications ujoin wLinkNoHref =
      [[("university", Value.str "Bangalore"), ("title", Value.str "x y"),
        ("description", Value.null), ("link", Value.null)]] ∧
    (("x y" : String) ≠ "x") := by
  refine ⟨by decide, by decide, by decide⟩

/-- Title rule stated by the amended claim: the title is the link's stripped
text only when a nested link exists and carries a non-empty href; otherwise
it is the item's own stripped text; an empty result is replaced by the
placeholder Untitled. -/
def titleRule (item : Html) : String :=
  match findDesc (isTagName "a") item with
  | some a =>
    match getAttr "href" a with
    | some href =>
      if href ≠ "" then orUntitled (pyStrip (textOf a))
      else orUntitled (pyStrip (textOf item))
    | none => orUntitled (pyStrip (textOf item))
  | none => orUntitled (pyStrip (textOf item))

/-- C6 amended: for every list item processed by the Bangalore and Mumbai
extractors, the produced title follows the title rule (link text only with a
non-empty href, item text otherwise, Untitled when empty), and every record
either extractor emits has a non-empty title. -/
theorem bangalore_mumbai_title_rule (uj : String → String → String) (item : Html)
    (w : World) :
    (bangaloreItem uj item).lookup "title" = some (Value.str (titleRule item)) ∧
    (mumbaiItem uj item).lookup "title" = some (Value.str (titleRule item)) ∧
    titleRule item ≠ "" ∧
    (∀ r ∈ scrape_bangalore_notifications uj w,
      ∃ t, r.lookup "title" = some (Value.str t) ∧ t ≠ "") ∧
    (∀ r ∈ scrape_mumbai_notifications uj w,
      ∃ t, r.lookup "title" = some (Value.str t) ∧ t ≠ "") := by
  refine ⟨?_, ?_, ?_, fun r hr => ?_, fun r hr => ?_⟩
  · unfold bangaloreItem bangaloreFallback titleRule
    split
    · split
      · split <;> rfl
      · rfl
    · rfl
  · unfold mumbaiItem mumbaiFallback titleRule
    split
    · split
      · split <;> rfl
      · rfl
    · rfl
  · unfold titleRule
    split
    · split
      · split <;> exact orUntitled_ne_empty _
      · exact orUntitled_ne_empty _
    · exact orUntitled_ne_empty _
  · obtain ⟨item', rfl⟩ := mem_scrape_bangalore hr
    exact (bangaloreItem_fields uj item').2.2
  · obtain ⟨li, rfl⟩ := mem_scrape_mumbai hr
    exact (mumbaiItem_fields uj li).2.2

/-- Witness for C6: the record scraped from the sample Bangalore page has the
non-empty title Hello. -/
theorem bangalore_mumbai_title_rule_witness :
    ∃ t, ([("university", Value.str "Bangalore"), ("title", Value.str "Hello"),
      ("description", Value.null), ("link", Value.str "x.pdf")] : Record).lookup "title" =
        some (Value.str t) ∧ t ≠ "" :=
  (bangalore_mumbai_title_rule ujoin (Html.text "") wSample).2.2.2.1
    [("university", Value.str "Bangalore"), ("title", Value.str "Hello"),
     ("description", Value.null), ("link", Value.str "x.pdf")] (by decide)

/-- Goa page with two headings: one whose text has surrounding whitespace and
one with no text at all. -/
def cxGoaDoc : Html :=
  .elem "html" [] [] [
    .elem "div" ["details1"] [] [
      .elem "div" ["details1_left"] [] [
        .elem "h4" [] [] [.text " Foo "],
        .elem "h4" [] [] []]]]

/-- World serving the whitespace-title Goa page. -/
def wGoaCx : World := fun url =>
  if url = goa_url then .response 200 cxGoaDoc else .netError

/-- C7 counterexample: the first heading's text is the string Foo surrounded
by spaces but the produced title is the stripped Foo, and the second
heading's text is empty but the produced title is the placeholder Untitled.
The claim that the record's title is the heading's text is false: the code
strips it and substitutes a placeholder when it is empty. -/
theorem goa_title_not_raw_heading_text :
    scrape_goa_notifications wGoaCx =
      [[("university", Value.str "Goa"), ("title", Value.str "Foo"),
        ("details", Value.list [])],
       [("university", Value.str "Goa"), ("title", Value.str "Untitled"),
        ("details", Value.list [])]] ∧
    textOf (Html.elem "h4" [] [] [Html.text " Foo "]) = " Foo " ∧
    (("Foo" : String) ≠ " Foo ") ∧
    textOf (Html.elem "h4" [] [] []) = "" ∧
    (("Untitled" : String) ≠ "") := by
  refine ⟨by decide, by decide, by decide, by decide, by decide⟩

/-- C7 amended: for every heading found inside the details1_left block, the
produced record's title is the heading's stripped text (Untitled when that is
empty), and the details field is the list of stripped bullet-item texts of
the heading's next sibling element exactly when that sibling is a ul,
otherwise the empty list; and the Goa extractor emits exactly one such record
per heading, in document order. -/
theorem goa_heading_record (h4 : Html) (following : List Html) (w : World) :
    (goaItem h4 following).lookup "title" =
      some (Value.str (orUntitled (pyStrip (textOf h4)))) ∧
    (∀ n, findNextSiblingTag following = some n → htmlName n = some "ul" →
      (goaItem h4 following).lookup "details" =
        some (Value.list ((findAllDesc (isTagName "li") n).map
          (fun li => pyStrip (textOf li))))) ∧
    (∀ n, findNextSiblingTag following = some n → htmlName n ≠ some "ul" →
      (goaItem h4 following).lookup "details" = some (Value.list [])) ∧
    (findNextSiblingTag following = none →
      (goaItem h4 following).lookup "details" = some (Value.list [])) ∧
    (∀ status body inside_wrapper details1_left,
      w goa_url = FetchOutcome.response status body →
      ¬(400 ≤ status ∧ status < 600) →
      findDesc (isTagClass "div" "details1") body = some inside_wrapper →
      findDesc (isTagClass "div" "details1_left") inside_wrapper = some details1_left →
      scrape_goa_notifications w =
        (findAllWithFollowing (isTagName "h4") details1_left).map
          (fun p => goaItem p.1 p.2)) := by
  refine ⟨rfl, fun n hn hul => ?_, fun n hn hul => ?_, fun hn => ?_,
          fun status body iw dl hw hstat hf1 hf2 => ?_⟩
  · simp [goaItem, hn, hul, List.lookup]
  · simp [goaItem, hn, beq_eq_false_iff_ne.mpr hul, List.lookup]
  · simp [goaItem, hn, List.lookup]
  · simp only [scrape_goa_notifications, hw, hf1, hf2]
    rw [if_neg hstat]

/-- Witness for C7: a heading followed by a ul of one bullet makes a record
whose details are the stripped bullet texts. -/
theorem goa_heading_record_witness :
    (goaItem (Html.elem "h4" [] [] [Html.text "Admissions"])
        [Html.elem "ul" [] [] [Html.elem "li" [] [] [Html.text "item1"]]]).lookup "details" =
      some (Value.list ((findAllDesc (isTagName "li")
        (Html.elem "ul" [] [] [Html.elem "li" [] [] [Html.text "item1"]])).map
          (fun li => pyStrip (textOf li)))) :=
  (goa_heading_record (Html.elem "h4" [] [] [Html.text "Admissions"])
      [Html.elem "ul" [] [] [Html.elem "li" [] [] [Html.text "item1"]]] wFail).2.1
    (Html.elem "ul" [] [] [Html.elem "li" [] [] [Html.text "item1"]]) rfl rfl
